import Mathlib

/-!
Verification of the `partiql-parser` crate glue code: a pyo3 binding
(`parse_partiql` in `src/lib.rs`) and an interactive CLI (`main` in
`src/main.rs`).  All real parsing is delegated to the external
`partiql_parser` crate, which this repository does not contain; we model it
as an opaque structure of operations, exactly as the design document treats
it ("an opaque dependency whose internal grammar and AST shape are not
reproduced here").
-/

/-- Abstract model of the external `partiql_parser` crate: a `Parser` type
with a `Default` construction, a `parse` operation returning a `Result`,
and the `{:?}` (Debug) formatters of the parsed structure and of the parser
error.  The repository treats all of these as opaque. -/
structure ExternalParserLib (Parser A E : Type) where
  default : Parser
  parse : Parser → String → Except E A
  fmtParsed : A → String
  fmtErr : E → String

/-- Model of `pyo3::PyErr` as this binding uses it: the binding only ever
raises `PyValueError` carrying a message. -/
inductive PyErr where
  | valueError (message : String)
deriving DecidableEq, Repr

/-- Model of `pyo3::PyResult α = Result<α, PyErr>`. -/
abbrev PyResult (α : Type) := Except PyErr α

/-- Effect-instrumented embedding of the body of `parse_partiql`
(src/lib.rs, lines 5–11), generic in the ambient monad so that the calls
into the external library can be logged or threaded through state:

    let parser = Parser::default();
    match parser.parse(query) {
        Ok(parsed) => Ok(format!("{:?}", parsed)),
        Err(e) => Err(PyValueError::new_err(format!("Failed to parse query: {:?}", e))),
    }
-/
def parse_partiqlM {m : Type → Type} [Monad m] {Parser A E : Type}
    (defaultP : m Parser) (parse : Parser → String → m (Except E A))
    (fmtParsed : A → String) (fmtErr : E → String)
    (query : String) : m (PyResult String) := do
  let parser ← defaultP
  let r ← parse parser query
  match r with
  | .ok parsed => pure (.ok (fmtParsed parsed))
  | .error e => pure (.error (PyErr.valueError ("Failed to parse query: " ++ fmtErr e)))

/-- The binding function `parse_partiql` (src/lib.rs, lines 5–11): builds a
fresh default parser, parses the query, and converts the result to the
Python success/error convention. -/
def parse_partiql {Parser A E : Type} (L : ExternalParserLib Parser A E)
    (query : String) : PyResult String :=
  let parser := L.default
  match L.parse parser query with
  | .ok parsed => .ok (L.fmtParsed parsed)
  | .error e => .error (PyErr.valueError ("Failed to parse query: " ++ L.fmtErr e))

/-- Rust's `str::trim` over our character model: drop whitespace from both
ends (src/main.rs, line 15: `let query = query.trim();`). -/
def trimChars (l : List Char) : List Char :=
  ((l.dropWhile Char.isWhitespace).reverse.dropWhile Char.isWhitespace).reverse

/-- `str::trim` on strings. -/
def rustTrim (s : String) : String := ⟨trimChars s.data⟩

/-- Rust's derived `Debug` for `Result`: `Ok(inner)` or `Err(inner)`
(the `{:?}` in `println!("Parsed Query: {:?}", parsed)`). -/
def fmtDebugResult {Parser A E : Type} (L : ExternalParserLib Parser A E) :
    Except E A → String
  | .ok parsed => "Ok(" ++ L.fmtParsed parsed ++ ")"
  | .error e => "Err(" ++ L.fmtErr e ++ ")"

/-- The fixed prompt written by `print!` (src/main.rs, line 7). -/
def promptString : String := "Please enter your PartiQL query: "

/-- Observable events of one run of the CLI, in order of occurrence. -/
inductive CLIEvent where
  | wrotePrompt
  | flushedStdout
  | readStdin (line : String)
  | calledParse (query : String)
  | wroteResult (text : String)
deriving DecidableEq, Repr

/-- The ambient world of one CLI run: whether `io::stdout().flush()`
succeeds, what `io::stdin().read_line` yields (the line read, or an I/O
error message), and whether the final `println!` can write. -/
structure CLIWorld where
  flushOk : Bool
  readLineResult : Except String String
  printlnOk : Bool

/-- Outcome of one CLI run: process exit status, the text written to
standard output, and the ordered event trace. -/
structure CLIOutcome where
  exitCode : Nat
  stdout : String
  events : List CLIEvent
deriving DecidableEq, Repr

/-- Embedding of `main` (src/main.rs, lines 5–26).  `print!` writes the
prompt; `flush()?` and `read_line(&mut query)?` propagate I/O errors as an
`anyhow::Result`, which the runtime turns into exit status 1; the final
`println!` panics on write failure (exit status 101); otherwise the trimmed
line is parsed once and the debug representation of the result enum is
printed unconditionally, and `main` returns `Ok(())` (exit status 0). -/
def runMain {Parser A E : Type} (L : ExternalParserLib Parser A E)
    (w : CLIWorld) : CLIOutcome :=
  if !w.flushOk then
    { exitCode := 1, stdout := promptString, events := [.wrotePrompt] }
  else
    match w.readLineResult with
    | .error _ =>
        { exitCode := 1, stdout := promptString,
          events := [.wrotePrompt, .flushedStdout] }
    | .ok line =>
        let query := rustTrim line
        let parsed := L.parse L.default query
        if !w.printlnOk then
          { exitCode := 101, stdout := promptString,
            events := [.wrotePrompt, .flushedStdout, .readStdin line,
                       .calledParse query] }
        else
          { exitCode := 0,
            stdout := promptString ++ "Parsed Query: "
                      ++ fmtDebugResult L parsed ++ "\n",
            events := [.wrotePrompt, .flushedStdout, .readStdin line,
                       .calledParse query,
                       .wroteResult ("Parsed Query: "
                         ++ fmtDebugResult L parsed ++ "\n")] }

/-- The argument of the (unique) parse call of a CLI run, if any. -/
def queryPassed (o : CLIOutcome) : Option String :=
  o.events.findSome? fun e =>
    match e with
    | .calledParse q => some q
    | _ => none

/-- A concrete instantiation of the external library, used to evaluate the
model on concrete inputs: it accepts exactly the query `SELECT 1`. -/
def toyLib : ExternalParserLib Unit String String where
  default := ()
  parse := fun _ q =>
    if q = "SELECT 1" then .ok "Query(Select(1))" else .error "UnexpectedToken"
  fmtParsed := fun a => "Parsed \x7b ast: " ++ a ++ " \x7d"
  fmtErr := fun e => "SyntaxError(" ++ e ++ ")"

/-! ### Helper lemmas -/

theorem dropWhile_append_of_forall {α : Type} {p : α → Bool} {l₁ l₂ : List α}
    (h : ∀ c ∈ l₁, p c = true) :
    (l₁ ++ l₂).dropWhile p = l₂.dropWhile p := by
  induction l₁ with
  | nil => simp
  | cons a l ih =>
      simp only [List.cons_append, List.dropWhile_cons, h a (by simp)]
      exact ih fun c hc => h c (by simp [hc])

theorem dropWhile_append_of_ne_nil {α : Type} {p : α → Bool} {l₁ l₂ : List α}
    (h : l₁.dropWhile p ≠ []) :
    (l₁ ++ l₂).dropWhile p = l₁.dropWhile p ++ l₂ := by
  induction l₁ with
  | nil => simp at h
  | cons a l ih =>
      by_cases hpa : p a = true
      · simp only [List.cons_append, List.dropWhile_cons, hpa, if_true]
        simp only [List.dropWhile_cons, hpa, if_true] at h
        exact ih h
      · simp only [List.cons_append, List.dropWhile_cons, hpa]
        simp

theorem trimChars_append_left {ws l : List Char}
    (h : ∀ c ∈ ws, Char.isWhitespace c = true) :
    trimChars (ws ++ l) = trimChars l := by
  unfold trimChars
  rw [dropWhile_append_of_forall h]

theorem trimChars_append_right {l ws : List Char}
    (h : ∀ c ∈ ws, Char.isWhitespace c = true) :
    trimChars (l ++ ws) = trimChars l := by
  unfold trimChars
  by_cases hd : l.dropWhile Char.isWhitespace = []
  · have hl : ∀ c ∈ l, Char.isWhitespace c = true := List.dropWhile_eq_nil_iff.mp hd
    rw [dropWhile_append_of_forall hl, List.dropWhile_eq_nil_iff.mpr h, hd]
  · rw [dropWhile_append_of_ne_nil hd, List.reverse_append,
        dropWhile_append_of_forall fun c hc => h c (List.mem_reverse.mp hc)]

theorem trimChars_pad {ws₁ ws₂ l : List Char}
    (h₁ : ∀ c ∈ ws₁, Char.isWhitespace c = true)
    (h₂ : ∀ c ∈ ws₂, Char.isWhitespace c = true) :
    trimChars (ws₁ ++ l ++ ws₂) = trimChars l := by
  rw [List.append_assoc, trimChars_append_left h₁, trimChars_append_right h₂]

theorem rustTrim_pad (ws₁ q ws₂ : String)
    (h₁ : ∀ c ∈ ws₁.data, Char.isWhitespace c = true)
    (h₂ : ∀ c ∈ ws₂.data, Char.isWhitespace c = true) :
    rustTrim (ws₁ ++ q ++ ws₂) = rustTrim q := by
  unfold rustTrim
  rw [String.data_append, String.data_append, trimChars_pad h₁ h₂]

/-! ### Claims about the binding function `parse_partiql` -/

/-- C1: For every query string that the external parser accepts, the
binding function `parse_partiql` returns a success result whose payload is
exactly the textual debug representation of the parsed structure, and
(given that the external library's Debug formatter never produces empty
text — Rust's derived `Debug` always prints at least the type name) that
payload is non-empty text. -/
theorem parse_partiql_success_payload {Parser A E : Type}
    (L : ExternalParserLib Parser A E) (query : String) (parsed : A)
    (h : L.parse L.default query = .ok parsed)
    (hne : ∀ a : A, L.fmtParsed a ≠ "") :
    parse_partiql L query = .ok (L.fmtParsed parsed)
      ∧ L.fmtParsed parsed ≠ "" :=
  ⟨by simp [parse_partiql, h], hne parsed⟩

/-- Witness for C1 at the concrete accepted query `SELECT 1`. -/
theorem parse_partiql_success_payload_witness :
    parse_partiql toyLib "SELECT 1" = .ok (toyLib.fmtParsed "Query(Select(1))")
      ∧ toyLib.fmtParsed "Query(Select(1))" ≠ "" :=
  parse_partiql_success_payload toyLib "SELECT 1" "Query(Select(1))" rfl
    (fun a h => by
      simp only [toyLib] at h
      have h2 := congrArg String.data h
      rw [String.data_append, String.data_append] at h2
      simp only [List.append_eq_nil] at h2
      exact absurd h2.2 (by decide))

/-- C2: For every query string that the external parser rejects, the
binding function `parse_partiql` returns an error result (a `ValueError`)
whose message contains the literal substring `Failed to parse query` and
embeds the debug representation of the underlying parser error. -/
theorem parse_partiql_error_message {Parser A E : Type}
    (L : ExternalParserLib Parser A E) (query : String) (e : E)
    (h : L.parse L.default query = .error e) :
    parse_partiql L query
        = .error (PyErr.valueError ("Failed to parse query: " ++ L.fmtErr e))
      ∧ ("Failed to parse query").data
          <:+: ("Failed to parse query: " ++ L.fmtErr e).data
      ∧ (L.fmtErr e).data <:+: ("Failed to parse query: " ++ L.fmtErr e).data := by
  refine ⟨by simp [parse_partiql, h], ?_, ?_⟩
  · refine ⟨[], (": ").data ++ (L.fmtErr e).data, ?_⟩
    rw [String.data_append, List.nil_append, ← List.append_assoc]
    have hsplit : ("Failed to parse query").data ++ (": ").data
        = ("Failed to parse query: ").data := by decide
    rw [hsplit]
  · exact ⟨("Failed to parse query: ").data, [],
      by rw [String.data_append, List.append_nil]⟩

/-- Witness for C2 at the concrete rejected query `SELECT (`. -/
theorem parse_partiql_error_message_witness :
    parse_partiql toyLib "SELECT ("
        = .error (PyErr.valueError
            ("Failed to parse query: " ++ toyLib.fmtErr "UnexpectedToken"))
      ∧ ("Failed to parse query").data
          <:+: ("Failed to parse query: " ++ toyLib.fmtErr "UnexpectedToken").data
      ∧ (toyLib.fmtErr "UnexpectedToken").data
          <:+: ("Failed to parse query: " ++ toyLib.fmtErr "UnexpectedToken").data :=
  parse_partiql_error_message toyLib "SELECT (" "UnexpectedToken" rfl

/-- C10: The binding function `parse_partiql` is total over its public
interface: every input string yields either the success result or the
`ValueError`-wrapped error result (there is no third path), and the error
branch is reachable exactly when the external parser rejects the input. -/
theorem parse_partiql_total {Parser A E : Type}
    (L : ExternalParserLib Parser A E) (query : String) :
    ((∃ s : String, parse_partiql L query = .ok s)
      ∨ (∃ msg : String, parse_partiql L query = .error (PyErr.valueError msg)))
    ∧ ((∃ msg : String, parse_partiql L query = .error (PyErr.valueError msg))
        ↔ ∃ e : E, L.parse L.default query = .error e) := by
  constructor
  · cases h : L.parse L.default query with
    | ok p => exact .inl ⟨L.fmtParsed p, by simp [parse_partiql, h]⟩
    | error e =>
        exact .inr ⟨"Failed to parse query: " ++ L.fmtErr e, by simp [parse_partiql, h]⟩
  · constructor
    · rintro ⟨msg, hm⟩
      cases h : L.parse L.default query with
      | ok p => rw [show parse_partiql L query = .ok (L.fmtParsed p) from by
                      simp [parse_partiql, h]] at hm
                exact absurd hm (by simp)
      | error e => exact ⟨e, rfl⟩
    · rintro ⟨e, he⟩
      exact ⟨"Failed to parse query: " ++ L.fmtErr e, by simp [parse_partiql, he]⟩

/-! ### Instrumented invocations of the binding -/

/-- Logging instrumentation of the external parse call: records each query
string the external parser's `parse` is invoked on. -/
def loggedParse {Parser A E : Type} (L : ExternalParserLib Parser A E) :
    Parser → String → StateM (List String) (Except E A) :=
  fun p q log => (L.parse p q, log ++ [q])

/-- Two sequential invocations of the binding body through a stateful
external parser, threading the host state from one call to the next. -/
def invokeTwice {σ Parser A E : Type}
    (defaultP : StateM σ Parser)
    (parse : Parser → String → StateM σ (Except E A))
    (fmtParsed : A → String) (fmtErr : E → String) (query : String) :
    StateM σ (PyResult String × PyResult String) := do
  let r₁ ← parse_partiqlM defaultP parse fmtParsed fmtErr query
  let r₂ ← parse_partiqlM defaultP parse fmtParsed fmtErr query
  pure (r₁, r₂)

/-- C7: For every query string, the binding body invokes the external
parser's `parse` exactly once, with exactly the given query: running the
body with a call-logging external parser appends precisely one log entry,
the query, to any starting log, and the produced value is that of the pure
function `parse_partiql` — no retry, no caching, no other effect. -/
theorem parse_partiql_single_call {Parser A E : Type}
    (L : ExternalParserLib Parser A E) (query : String) (log₀ : List String) :
    (parse_partiqlM (pure L.default) (loggedParse L)
        L.fmtParsed L.fmtErr query).run log₀
      = (parse_partiql L query, log₀ ++ [query]) := by
  cases h : L.parse L.default query with
  | ok p =>
      simp [parse_partiqlM, parse_partiql, loggedParse, StateT.run, bind,
            StateT.bind, pure, StateT.pure, h]
  | error e =>
      simp [parse_partiqlM, parse_partiql, loggedParse, StateT.run, bind,
            StateT.bind, pure, StateT.pure, h]

/-- C9: The binding function is deterministic: assuming the external
parser's `parse` is a pure function of its input (it neither reads nor
writes the host state), two sequential invocations with the same query
produce identical results — both equal to `parse_partiql` — and leave the
host state unchanged: no state is retained between calls. -/
theorem parse_partiql_deterministic {σ Parser A E : Type}
    (L : ExternalParserLib Parser A E)
    (parse : Parser → String → StateM σ (Except E A))
    (hpure : ∀ p q s, parse p q s = (L.parse p q, s))
    (query : String) (s : σ) :
    (invokeTwice (pure L.default) parse L.fmtParsed L.fmtErr query).run s
      = ((parse_partiql L query, parse_partiql L query), s) := by
  cases h : L.parse L.default query with
  | ok p =>
      simp [invokeTwice, parse_partiqlM, parse_partiql, StateT.run, bind,
            StateT.bind, pure, StateT.pure, hpure, h]
  | error e =>
      simp [invokeTwice, parse_partiqlM, parse_partiql, StateT.run, bind,
            StateT.bind, pure, StateT.pure, hpure, h]

/-- Witness for C9: the stateless lift of the concrete library is pure, and
two invocations on `SELECT 1` agree and leave the state untouched. -/
theorem parse_partiql_deterministic_witness :
    (invokeTwice (σ := Nat) (pure toyLib.default)
        (fun p q s => (toyLib.parse p q, s))
        toyLib.fmtParsed toyLib.fmtErr "SELECT 1").run 0
      = ((parse_partiql toyLib "SELECT 1", parse_partiql toyLib "SELECT 1"), 0) :=
  parse_partiql_deterministic toyLib (fun p q s => (toyLib.parse p q, s))
    (fun _ _ _ => rfl) "SELECT 1" 0

/-! ### Claims about the CLI `main` -/

/-- C3: The CLI process exits with non-zero status exactly when a
stdin/stdout operation itself fails; when all I/O succeeds it exits with
status 0 regardless of the parse verdict, and a parse failure is printed
(an `Err(...)` appears on standard output) rather than propagated as a
process error. -/
theorem main_exit_code {Parser A E : Type} (L : ExternalParserLib Parser A E)
    (w : CLIWorld) :
    ((runMain L w).exitCode ≠ 0 ↔
      w.flushOk = false ∨ Except.isOk w.readLineResult = false
        ∨ w.printlnOk = false)
    ∧ (∀ line e, w.flushOk = true → w.printlnOk = true →
        w.readLineResult = Except.ok line →
        L.parse L.default (rustTrim line) = Except.error e →
        (runMain L w).exitCode = 0
        ∧ ("Err(").data <:+: ((runMain L w).stdout).data) := by
  obtain ⟨f, r, p⟩ := w
  cases f <;> cases p <;> cases r <;> simp [runMain, Except.isOk, Except.toBool]
  intro line e hline hpe
  subst hline
  rw [hpe]
  refine ⟨promptString.data ++ ("Parsed Query: ").data,
          (L.fmtErr e).data ++ (")").data ++ ['\n'], ?_⟩
  simp [fmtDebugResult, String.data_append, List.append_assoc]

/-- Witness for C3: the malformed input `SELECT (` still exits with
status 0 and the output carries an error-shaped debug representation. -/
theorem main_exit_code_witness :
    (runMain toyLib ⟨true, Except.ok "SELECT (", true⟩).exitCode = 0
      ∧ ("Err(").data
          <:+: ((runMain toyLib ⟨true, Except.ok "SELECT (", true⟩).stdout).data :=
  (main_exit_code toyLib ⟨true, Except.ok "SELECT (", true⟩).2
    "SELECT (" "UnexpectedToken" rfl rfl rfl rfl

/-- C4: The CLI trims surrounding whitespace before invoking the parser:
for input equal to a query surrounded by leading/trailing whitespace, the
string passed to the external parser is the same as for the bare query
(namely the trimmed query), and the observable output and exit status
coincide. -/
theorem main_trim_invariance {Parser A E : Type} (L : ExternalParserLib Parser A E)
    (ws₁ q ws₂ : String) (b : Bool)
    (h₁ : ∀ c ∈ ws₁.data, Char.isWhitespace c = true)
    (h₂ : ∀ c ∈ ws₂.data, Char.isWhitespace c = true) :
    queryPassed (runMain L ⟨true, Except.ok (ws₁ ++ q ++ ws₂), b⟩)
      = queryPassed (runMain L ⟨true, Except.ok q, b⟩)
    ∧ queryPassed (runMain L ⟨true, Except.ok q, b⟩) = some (rustTrim q)
    ∧ (runMain L ⟨true, Except.ok (ws₁ ++ q ++ ws₂), b⟩).stdout
      = (runMain L ⟨true, Except.ok q, b⟩).stdout
    ∧ (runMain L ⟨true, Except.ok (ws₁ ++ q ++ ws₂), b⟩).exitCode
      = (runMain L ⟨true, Except.ok q, b⟩).exitCode := by
  have ht := rustTrim_pad ws₁ q ws₂ h₁ h₂
  cases b <;> simp [runMain, queryPassed, ht, List.findSome?]

/-- Witness for C4 at the spec's example: input `  SELECT 1  \n` passes the
same query to the parser as bare `SELECT 1`. -/
theorem main_trim_invariance_witness :
    queryPassed (runMain toyLib ⟨true, Except.ok ("  " ++ "SELECT 1" ++ "  \n"), true⟩)
      = queryPassed (runMain toyLib ⟨true, Except.ok "SELECT 1", true⟩)
    ∧ queryPassed (runMain toyLib ⟨true, Except.ok "SELECT 1", true⟩)
      = some (rustTrim "SELECT 1")
    ∧ (runMain toyLib ⟨true, Except.ok ("  " ++ "SELECT 1" ++ "  \n"), true⟩).stdout
      = (runMain toyLib ⟨true, Except.ok "SELECT 1", true⟩).stdout
    ∧ (runMain toyLib ⟨true, Except.ok ("  " ++ "SELECT 1" ++ "  \n"), true⟩).exitCode
      = (runMain toyLib ⟨true, Except.ok "SELECT 1", true⟩).exitCode :=
  main_trim_invariance toyLib "  " "SELECT 1" "  \n" true
    (by decide) (by decide)

/-- C5: Every execution that reaches the blocking read of standard input
has already written the prompt and flushed standard output: whenever a
read event occurs in the trace, the trace begins with the prompt write,
then the flush, then the read. -/
theorem main_prompt_before_read {Parser A E : Type} (L : ExternalParserLib Parser A E)
    (w : CLIWorld) (line : String)
    (h : CLIEvent.readStdin line ∈ (runMain L w).events) :
    ∃ rest, (runMain L w).events
      = CLIEvent.wrotePrompt :: CLIEvent.flushedStdout
          :: CLIEvent.readStdin line :: rest := by
  obtain ⟨f, r, p⟩ := w
  cases f
  · simp [runMain] at h
  · cases r with
    | error e => simp [runMain] at h
    | ok l =>
        cases p
        · simp [runMain] at h
          subst h
          exact ⟨_, rfl⟩
        · simp [runMain] at h
          subst h
          exact ⟨_, rfl⟩

/-- Witness for C5 on a run that reads `SELECT 1`. -/
theorem main_prompt_before_read_witness :
    ∃ rest, (runMain toyLib ⟨true, Except.ok "SELECT 1", true⟩).events
      = CLIEvent.wrotePrompt :: CLIEvent.flushedStdout
          :: CLIEvent.readStdin "SELECT 1" :: rest :=
  main_prompt_before_read toyLib ⟨true, Except.ok "SELECT 1", true⟩ "SELECT 1"
    (by decide)

/-- C6: For every input line whose I/O succeeds, the CLI prints the debug
representation of the parse result enum unconditionally: the output holds
the prompt followed by the result line, with a success-shaped `Ok(...)`
representation when the parser accepts and an error-shaped `Err(...)`
representation when it rejects. -/
theorem main_prints_result {Parser A E : Type} (L : ExternalParserLib Parser A E)
    (w : CLIWorld) (line : String)
    (hf : w.flushOk = true) (hp : w.printlnOk = true)
    (hr : w.readLineResult = Except.ok line) :
    (runMain L w).stdout
      = promptString ++ "Parsed Query: "
        ++ fmtDebugResult L (L.parse L.default (rustTrim line)) ++ "\n"
    ∧ (∀ p, L.parse L.default (rustTrim line) = Except.ok p →
        ("Ok(").data <:+: ((runMain L w).stdout).data)
    ∧ (∀ e, L.parse L.default (rustTrim line) = Except.error e →
        ("Err(").data <:+: ((runMain L w).stdout).data) := by
  obtain ⟨f, r, p⟩ := w
  simp only at hf hp hr
  subst hf; subst hp; subst hr
  have hs : (runMain L ⟨true, Except.ok line, true⟩).stdout
      = promptString ++ "Parsed Query: "
        ++ fmtDebugResult L (L.parse L.default (rustTrim line)) ++ "\n" := rfl
  refine ⟨hs, fun pa hpa => ?_, fun e he => ?_⟩
  · rw [hs, hpa]
    refine ⟨promptString.data ++ ("Parsed Query: ").data,
            (L.fmtParsed pa).data ++ (")").data ++ ['\n'], ?_⟩
    simp [fmtDebugResult, String.data_append, List.append_assoc]
  · rw [hs, he]
    refine ⟨promptString.data ++ ("Parsed Query: ").data,
            (L.fmtErr e).data ++ (")").data ++ ['\n'], ?_⟩
    simp [fmtDebugResult, String.data_append, List.append_assoc]

/-- Witness for C6: on input `SELECT 1` the output line carries a
success-shaped `Ok(...)` debug representation. -/
theorem main_prints_result_witness :
    ("Ok(").data
      <:+: ((runMain toyLib ⟨true, Except.ok "SELECT 1", true⟩).stdout).data :=
  (main_prints_result toyLib ⟨true, Except.ok "SELECT 1", true⟩ "SELECT 1"
      rfl rfl rfl).2.1 "Query(Select(1))" rfl

/-- C8: With all I/O succeeding, the CLI's complete standard-output text is
exactly the prompt `Please enter your PartiQL query: ` (which carries no
newline, so the result shares its output line) directly followed by
`Parsed Query: `, the debug representation of the parse result, and a
single newline. -/
theorem main_output_shape {Parser A E : Type} (L : ExternalParserLib Parser A E)
    (w : CLIWorld) (line : String)
    (hf : w.flushOk = true) (hp : w.printlnOk = true)
    (hr : w.readLineResult = Except.ok line) :
    (runMain L w).stdout
      = "Please enter your PartiQL query: "
        ++ ("Parsed Query: "
            ++ fmtDebugResult L (L.parse L.default (rustTrim line)) ++ "\n")
    ∧ ∀ c ∈ ("Please enter your PartiQL query: ").data, c ≠ '\n' := by
  obtain ⟨f, r, p⟩ := w
  simp only at hf hp hr
  subst hf; subst hp; subst hr
  constructor
  · have hs : (runMain L ⟨true, Except.ok line, true⟩).stdout
        = promptString ++ "Parsed Query: "
          ++ fmtDebugResult L (L.parse L.default (rustTrim line)) ++ "\n" := rfl
    rw [hs]
    simp only [String.append_assoc]
    rfl
  · decide

/-- Witness for C8 on input `SELECT 1`. -/
theorem main_output_shape_witness :
    (runMain toyLib ⟨true, Except.ok "SELECT 1", true⟩).stdout
      = "Please enter your PartiQL query: "
        ++ ("Parsed Query: "
            ++ fmtDebugResult toyLib
                 (toyLib.parse toyLib.default (rustTrim "SELECT 1")) ++ "\n")
    ∧ ∀ c ∈ ("Please enter your PartiQL query: ").data, c ≠ '\n' :=
  main_output_shape toyLib ⟨true, Except.ok "SELECT 1", true⟩ "SELECT 1"
    rfl rfl rfl
